import Mathlib

/-!
Shallow embedding of the local-CI verification orchestrator
(`src/infra/scripts/verify.sh`) and the parts of the project detector
(`src/infra/scripts/detect.sh`) needed to settle the frozen claims.

File contents are modelled as association lists from path to content.
The working tree tracks three components visible to the git commands the
script issues: the committed (HEAD) content of tracked files, the current
working-tree content of tracked files, and the untracked files present.
-/

abbrev FileMap := List (String × String)

/-- Working-tree state as seen by the git commands in `verify.sh`:
`tracked` is the committed (HEAD) content, `modified` the current
working-tree content of tracked files, `untracked` the untracked files. -/
structure WorkTree where
  tracked : FileMap
  modified : FileMap
  untracked : FileMap
deriving DecidableEq, Repr

/-- verify.sh lines 55-57: `NEEDS_STASH` is set when `git diff --quiet`
fails (unstaged changes) or untracked files exist.  (The staged-changes
check collapses into `modified ≠ tracked` in this content-only model.) -/
def needsStash (t : WorkTree) : Bool :=
  decide (¬ t.modified = t.tracked) || decide (¬ t.untracked = [])

/-- State after the Guarding phase: the (possibly stashed) tree, the stash
contents if one was taken, and the `STASH_CREATED` flag (line 60). -/
structure GuardState where
  tree : WorkTree
  stash : Option (FileMap × FileMap)
  stashCreated : Bool
deriving DecidableEq, Repr

/-- verify.sh lines 54-62: stash push runs only when git is present and the
tree is dirty; `stashOk` models whether the `git stash push` command
succeeds.  A failed push leaves the tree as it was and `STASH_CREATED`
false — the script continues regardless (`&& STASH_CREATED=true`). -/
def guardPhase (hasGit stashOk : Bool) (t : WorkTree) : GuardState :=
  if hasGit && needsStash t && stashOk then
    { tree := { t with modified := t.tracked, untracked := [] }
      stash := some (t.modified, t.untracked)
      stashCreated := true }
  else
    { tree := t, stash := none, stashCreated := false }

/-- verify.sh lines 66-75 (`cleanup`, installed by `trap cleanup EXIT`):
`git checkout .` resets tracked files to HEAD, `git clean -fd` removes
untracked files, then `git stash pop` re-applies the stash when
`STASH_CREATED` is true. -/
def cleanupPhase (hasGit : Bool) (g : GuardState) : WorkTree :=
  if hasGit then
    let t1 : WorkTree := { g.tree with modified := g.tree.tracked, untracked := [] }
    match g.stash, g.stashCreated with
    | some (m, u), true => { t1 with modified := m, untracked := u }
    | _, _ => t1
  else g.tree

/-- The guard / Running / cleanup bracket.  `mutate` stands for the net
effect of the Running phase on the working tree (everything the launched
tools wrote, up to whatever point the phase reached — the `trap cleanup
EXIT` at line 76 applies `cleanup` to that intermediate tree on every exit
path, normal or aborted, so an aborted Running phase is just another
`mutate`). -/
def runGuarded (hasGit stashOk : Bool) (mutate : WorkTree → WorkTree) (t : WorkTree) : WorkTree :=
  cleanupPhase hasGit
    (let g := guardPhase hasGit stashOk t
     { g with tree := mutate g.tree })

/-! ## Tool execution, output capture and truncation -/

/-- verify.sh lines 86-91 (`run_tool`): when the captured output exceeds
30 lines, keep the first 30 lines and append the fixed marker line
`... (truncated)`. -/
def truncHead (lines : List String) : List String :=
  if 30 < lines.length then lines.take 30 ++ ["... (truncated)"] else lines

/-- verify.sh lines 137-140: pytest output exceeding 30 lines keeps the
last 30 lines (`tail -30`); no marker line is appended. -/
def truncTail (lines : List String) : List String :=
  if 30 < lines.length then lines.drop (lines.length - 30) else lines

/-- Tool statuses appearing in the assembled report (line 218). -/
inductive Status where
  | pass
  | fail
  | timeout
  | skip
deriving DecidableEq, Repr

structure ToolResult where
  status : Status
  exit_code : Option Nat
  output : List String
deriving DecidableEq, Repr

/-- verify.sh lines 211-221 (`tool_result`): a missing exit record maps to
`skip` with null exit code and empty output; otherwise exit code 0 maps to
`pass`, 124 to `timeout`, anything else to `fail`. -/
def tool_result (rec : Option (Nat × List String)) : ToolResult :=
  match rec with
  | none => { status := .skip, exit_code := none, output := [] }
  | some (ec, out) =>
    { status := if ec = 0 then .pass else if ec = 124 then .timeout else .fail
      exit_code := some ec
      output := out }

/-- The detection flags `verify.sh` reads from the detection JSON
(lines 21-41), plus the probes it makes for the pyright fallbacks
(lines 105-108). -/
structure OrchFlags where
  hasVenv : Bool
  hasRuff : Bool
  hasPyright : Bool
  hasPrecommit : Bool
  hasTests : Bool
  hasGit : Bool
  ruffInVenv : Bool
  pytestInVenv : Bool
  precommitInVenv : Bool
  pyrightInVenv : Bool
  pyrightInNodeModules : Bool
  npxAvailable : Bool
  localRuffVer : Option String
  hasPytestCov : Bool
  covInAddopts : Bool
deriving DecidableEq, Repr

/-- One subprocess launch made by the script: tool name, command line, and
the deadline enforced on it, if any (`timeout <secs>` wrapper). -/
structure Launch where
  name : String
  cmd : String
  timeoutSecs : Option Nat
deriving DecidableEq, Repr

/-- verify.sh lines 96-114: Group 1 launches (lint / format / type check /
hook runner).  None of them is wrapped in a `timeout` command. -/
def group1Launches (f : OrchFlags) : List Launch :=
  (if f.hasRuff && f.ruffInVenv then
    [{ name := "ruff_check", cmd := ".venv/bin/ruff check .", timeoutSecs := none },
     { name := "ruff_format", cmd := ".venv/bin/ruff format --check .", timeoutSecs := none }]
   else []) ++
  (if f.hasPyright then
    (if f.pyrightInVenv then
      [{ name := "pyright", cmd := ".venv/bin/pyright", timeoutSecs := none }]
     else if f.pyrightInNodeModules then
      [{ name := "pyright", cmd := "node_modules/.bin/pyright", timeoutSecs := none }]
     else if f.npxAvailable then
      [{ name := "pyright", cmd := "npx --no-install pyright", timeoutSecs := none }]
     else [])
   else []) ++
  (if f.hasPrecommit && f.precommitInVenv then
    [{ name := "pre_commit", cmd := ".venv/bin/pre-commit run --all-files", timeoutSecs := none }]
   else [])

/-- The pytest command chosen at lines 126-135 (coverage flag depends on
the detection facts); always wrapped in `timeout 120`. -/
def pytestLaunch (f : OrchFlags) : Launch :=
  { name := "pytest"
    cmd := if f.covInAddopts then ".venv/bin/pytest -q --tb=short"
           else if f.hasPytestCov then ".venv/bin/pytest -q --tb=short --cov"
           else ".venv/bin/pytest -q --tb=short"
    timeoutSecs := some 120 }

/-- verify.sh lines 117-143: Group 2 — the collect-only step runs first
(no `timeout` wrapper), and the execution step is launched only when the
recorded collection exit code is 0. -/
def group2Launches (f : OrchFlags) (collectExit : Nat) : List Launch :=
  if f.hasTests && f.pytestInVenv then
    { name := "test_collect", cmd := ".venv/bin/pytest --collect-only -q",
      timeoutSecs := none } ::
    (if collectExit = 0 then [pytestLaunch f] else [])
  else []

/-- Every subprocess launch a run makes, given the flags and the exit code
the collection step records. -/
def allLaunches (f : OrchFlags) (collectExit : Nat) : List Launch :=
  group1Launches f ++ group2Launches f collectExit

/-- The outcome each tool would produce if launched: exit code and raw
(merged stdout/stderr) output lines. -/
structure ToolRaw where
  ruffCheck : Nat × List String
  ruffFormat : Nat × List String
  pyright : Nat × List String
  preCommit : Nat × List String
  collectExit : Nat
  collectOut : List String
  pytestExit : Nat
  pytestOut : List String
deriving DecidableEq, Repr

/-- Contents of `$RESULTS_DIR` after the `wait` at line 193: for each tool,
the recorded (exit code, captured output) pair, or `none` when the tool was
never launched (no `.exit` file written). -/
structure Records where
  ruffCheck : Option (Nat × List String)
  ruffFormat : Option (Nat × List String)
  pyright : Option (Nat × List String)
  preCommit : Option (Nat × List String)
  testCollect : Option (Nat × List String)
  pytest : Option (Nat × List String)
deriving DecidableEq, Repr

/-- verify.sh lines 96-143: which records exist after the Running phase.
Group 1 tools are captured through `run_tool` (head truncation + marker);
the collection step is captured directly with no truncation (lines
120-121); the execution step runs only on collection exit 0 and is
tail-truncated (lines 137-140). -/
def runTools (f : OrchFlags) (raw : ToolRaw) : Records :=
  { ruffCheck :=
      if f.hasRuff && f.ruffInVenv then some (raw.ruffCheck.1, truncHead raw.ruffCheck.2)
      else none
    ruffFormat :=
      if f.hasRuff && f.ruffInVenv then some (raw.ruffFormat.1, truncHead raw.ruffFormat.2)
      else none
    pyright :=
      if f.hasPyright && (f.pyrightInVenv || f.pyrightInNodeModules || f.npxAvailable) then
        some (raw.pyright.1, truncHead raw.pyright.2)
      else none
    preCommit :=
      if f.hasPrecommit && f.precommitInVenv then
        some (raw.preCommit.1, truncHead raw.preCommit.2)
      else none
    testCollect :=
      if f.hasTests && f.pytestInVenv then some (raw.collectExit, raw.collectOut) else none
    pytest :=
      if f.hasTests && f.pytestInVenv && raw.collectExit = 0 then
        some (raw.pytestExit, truncTail raw.pytestOut)
      else none }

/-! ## Version-drift detection -/

/-- One version-mismatch fact (lines 255-257, 260-262, 284-286). -/
structure Mismatch where
  tool : String
  kind : String
  localVer : String
  pinned : String
deriving DecidableEq, Repr

/-- verify.sh lines 253-258: a `venv_vs_precommit` entry for ruff is
appended exactly when both the local version and the hook-pinned version
are present (non-empty → `Option.some`) and unequal. -/
def ruffPrecommitMismatch (localRuff precommitRuff : Option String) : List Mismatch :=
  match localRuff, precommitRuff with
  | some lr, some pr =>
    if lr ≠ pr then [{ tool := "ruff", kind := "venv_vs_precommit", localVer := lr, pinned := pr }]
    else []
  | _, _ => []

/-- verify.sh lines 259-263: the `venv_vs_ci` entry for ruff, same gating
against the CI-pinned version. -/
def ruffCiMismatch (localRuff ciRuff : Option String) : List Mismatch :=
  match localRuff, ciRuff with
  | some lr, some cr =>
    if lr ≠ cr then [{ tool := "ruff", kind := "venv_vs_ci", localVer := lr, pinned := cr }]
    else []
  | _, _ => []

/-- Python `str.split(sep)` for a one-character separator, over the
character list of a string (`"".split(sep)` is `[""]`, so the empty list
of characters maps to `[[]]`). -/
def splitChars (sep : Char) : List Char → List (List Char)
  | [] => [[]]
  | c :: rest =>
    let r := splitChars sep rest
    if c = sep then [] :: r
    else (c :: r.headD []) :: r.tail

/-- Python `sep.join(parts)`. -/
def joinWith (sep : String) : List String → String
  | [] => ""
  | [s] => s
  | s :: rest => s ++ sep ++ joinWith sep rest

/-- verify.sh line 282: `local_minor = '.'.join(local_python.split('.')[:2])`. -/
def majorMinor (v : String) : String :=
  joinWith "." (((splitChars '.' v.data).map String.mk).take 2)

/-- verify.sh lines 281-287: the python `venv_vs_ci` entry compares the
local version truncated to major.minor against the CI pin (itself captured
as major.minor by the regex at line 274); the entry's `local` field holds
the truncated version. -/
def pythonCiMismatch (localPython ciPython : Option String) : List Mismatch :=
  match localPython, ciPython with
  | some lp, some cp =>
    if majorMinor lp ≠ cp then
      [{ tool := "python", kind := "venv_vs_ci", localVer := majorMinor lp, pinned := cp }]
    else []
  | _, _ => []

/-- verify.sh lines 252-287: the full version-mismatch list, in the order
the script appends entries. -/
def version_mismatches (localRuff precommitRuff ciRuff localPython ciPython : Option String) :
    List Mismatch :=
  ruffPrecommitMismatch localRuff precommitRuff ++ ruffCiMismatch localRuff ciRuff ++
    pythonCiMismatch localPython ciPython

/-! ## Report assembly and the orchestrator -/

/-- The pinned/probed versions and hook facts gathered by Group 3
(lines 146-190) and the assembler (lines 248-287): hook-config ruff pin,
CI ruff pin, local python version (from the detection JSON), CI python
pin, and the two hook-registration probes (line 180-183). -/
structure Pins where
  precommitRuff : Option String
  ciRuff : Option String
  localPython : Option String
  ciPython : Option String
  hooksPathSet : Bool
  hookFileExists : Bool
deriving DecidableEq, Repr

/-- verify.sh lines 178-184: hooks are "registered" when pre-commit and
git are both present and either `core.hooksPath` is set or
`.git/hooks/pre-commit` exists. -/
def hooksRegisteredCheck (hasPrecommit hasGit hooksPathSet hookFileExists : Bool) : Bool :=
  hasPrecommit && hasGit && (hooksPathSet || hookFileExists)

/-- The full (non-skipped) verification report (lines 289-300). -/
structure Report where
  skipped : Bool
  ruff_check : ToolResult
  ruff_format : ToolResult
  pyright : ToolResult
  pre_commit : ToolResult
  test_collect : ToolResult
  pytest : ToolResult
  versionMismatches : List Mismatch
  hooksRegistered : Bool
deriving DecidableEq, Repr

/-- verify.sh lines 197-300: map each record through `tool_result`, attach
the drift list and the hooks-registration flag. -/
def assembleReport (recs : Records) (f : OrchFlags) (pins : Pins) : Report :=
  { skipped := false
    ruff_check := tool_result recs.ruffCheck
    ruff_format := tool_result recs.ruffFormat
    pyright := tool_result recs.pyright
    pre_commit := tool_result recs.preCommit
    test_collect := tool_result recs.testCollect
    pytest := tool_result recs.pytest
    versionMismatches :=
      version_mismatches f.localRuffVer pins.precommitRuff pins.ciRuff
        pins.localPython pins.ciPython
    hooksRegistered :=
      hooksRegisteredCheck f.hasPrecommit f.hasGit pins.hooksPathSet pins.hookFileExists }

/-- What a run returns to the caller. -/
inductive Outcome where
  | error (msg : String)
  | skippedReport (reason : String)
  | full (r : Report)
deriving DecidableEq, Repr

def Outcome.isError : Outcome → Bool
  | .error _ => true
  | _ => false

def Outcome.isFull : Outcome → Bool
  | .full _ => true
  | _ => false

/-- A whole run: the returned outcome, every subprocess launch made, the
observable phase activity, and the final working tree. -/
structure OrchResult where
  outcome : Outcome
  launches : List Launch
  stashAttempted : Bool
  driftChecked : Bool
  finalTree : WorkTree
deriving DecidableEq, Repr

/-- The whole of verify.sh, lines 12-301.  `detectJsonFound` models the
existence check at line 14 (missing file → error JSON on stderr, exit 1).
A missing venv short-circuits at lines 44-47 before any guard, launch or
drift check.  Otherwise the run guards the tree, launches the tools,
restores the tree through the EXIT trap, and assembles the full report;
a failure of the stash command (`stashOk = false`) is swallowed and the
run still produces the report. -/
def orchestrate (detectJsonFound : Bool) (f : OrchFlags) (stashOk : Bool)
    (raw : ToolRaw) (pins : Pins) (mutate : WorkTree → WorkTree) (t : WorkTree) : OrchResult :=
  if detectJsonFound = false then
    { outcome := .error "Detection JSON not found"
      launches := [], stashAttempted := false, driftChecked := false, finalTree := t }
  else if f.hasVenv = false then
    { outcome := .skippedReport "no venv detected"
      launches := [], stashAttempted := false, driftChecked := false, finalTree := t }
  else
    { outcome := .full (assembleReport (runTools f raw) f pins)
      launches := allLaunches f raw.collectExit
      stashAttempted := f.hasGit && needsStash t
      driftChecked := true
      finalTree := runGuarded f.hasGit stashOk mutate t }

/-! ## Detector (detect.sh): pyproject parsing with graceful degradation -/

/-- The fields the python block of detect.sh reads from a successfully
parsed `pyproject.toml` (lines 126-164): declared name and
requires-python, presence of `[tool.ruff]` and `[tool.coverage]` blocks,
the pytest `addopts` string, and the concatenated dependency entries
(project dependencies, optional-dependency groups and dependency-groups). -/
structure PyProject where
  name : Option String
  requiresPython : Option String
  hasToolRuff : Bool
  hasToolCoverage : Bool
  addopts : String
  deps : List String
deriving DecidableEq, Repr

/-- `x.split(sep)[0]`: everything before the first occurrence of `sep`. -/
def cutAt (sep : Char) (s : List Char) : List Char :=
  (splitChars sep s).headD []

/-- Python `str.strip()` over a character list. -/
def trimChars (s : List Char) : List Char :=
  ((s.dropWhile Char.isWhitespace).reverse.dropWhile Char.isWhitespace).reverse

/-- Python `pat in hay` (substring containment). -/
def substrAux (pat : List Char) : List Char → Bool
  | [] => pat.isEmpty
  | c :: rest => pat.isPrefixOf (c :: rest) || substrAux pat rest

def hasSubstr (hay pat : String) : Bool :=
  substrAux pat.data hay.data

/-- detect.sh line 146: a dependency entry is reduced to a bare package
name by cutting at each of `[ > < = ! ~ ;`, trimming, and lowercasing. -/
def depName (d : String) : String :=
  let s := cutAt '[' d.data
  let s := cutAt '>' s
  let s := cutAt '<' s
  let s := cutAt '=' s
  let s := cutAt '!' s
  let s := cutAt '~' s
  let s := cutAt ';' s
  String.mk ((trimChars s).map Char.toLower)

/-- Inputs to the detector's metadata block: whether `pyproject.toml`
exists, the parse result (`none` models an unreadable file, a missing
TOML library, or a parse exception — the `except Exception: pass` at
lines 165-166), the basename of the project root, and the two auxiliary
file probes feeding the same facts. -/
structure DetectInput where
  hasPyproject : Bool
  parsed : Option PyProject
  cwdBasename : String
  hasRuffToml : Bool
  hasCoveragerc : Bool
deriving DecidableEq, Repr

/-- The metadata-derived slice of the Detection Fact Sheet
(detect.sh lines 104-174 and 234-261). -/
structure FactSheet where
  project_name : String
  requires_python : Option String
  ruffArea : Bool
  has_coverage_config : Bool
  cov_in_addopts : Bool
  has_inline_snapshot : Bool
  has_dirty_equals : Bool
  has_pydantic : Bool
  has_pytest_cov : Bool
deriving DecidableEq, Repr

/-- detect.sh lines 104-174: the metadata facts.  All facts start at their
absent/false defaults; a successful parse fills them in; a failed parse
leaves them at the defaults; an undeclared (or empty) project name falls
back to the basename of the project root (lines 168-169); `.coveragerc`
alone also switches coverage config on (lines 171-172). -/
def detectFacts (i : DetectInput) : FactSheet :=
  let r := if i.hasPyproject then i.parsed else none
  match r with
  | none =>
    { project_name := i.cwdBasename
      requires_python := none
      ruffArea := i.hasRuffToml
      has_coverage_config := i.hasCoveragerc
      cov_in_addopts := false
      has_inline_snapshot := false
      has_dirty_equals := false
      has_pydantic := false
      has_pytest_cov := false }
  | some p =>
    let depNames := p.deps.map depName
    let hasPytestCov := "pytest-cov" ∈ depNames
    let covInAddopts := hasSubstr p.addopts "--cov"
    { project_name :=
        match p.name with
        | some n => if n = "" then i.cwdBasename else n
        | none => i.cwdBasename
      requires_python := p.requiresPython
      ruffArea := i.hasRuffToml || p.hasToolRuff
      has_coverage_config :=
        p.hasToolCoverage || covInAddopts || hasPytestCov || i.hasCoveragerc
      cov_in_addopts := covInAddopts
      has_inline_snapshot := "inline-snapshot" ∈ depNames
      has_dirty_equals := "dirty-equals" ∈ depNames
      has_pydantic := "pydantic" ∈ depNames
      has_pytest_cov := hasPytestCov }

/-! ## Helper lemmas -/

/-- Core restoration lemma for the guard/cleanup bracket: with git present,
if the stash command succeeds whenever the tree is dirty, the bracket
returns the tree unchanged for every Running-phase mutation that leaves
the committed (HEAD) content alone. -/
theorem runGuarded_restores (t : WorkTree) (stashOk : Bool) (mutate : WorkTree → WorkTree)
    (hmut : ∀ u, (mutate u).tracked = u.tracked)
    (hstash : needsStash t = true → stashOk = true) :
    runGuarded true stashOk mutate t = t := by
  obtain ⟨tr, mo, un⟩ := t
  by_cases hn : needsStash ⟨tr, mo, un⟩ = true
  · have hso := hstash hn
    subst hso
    simp [runGuarded, guardPhase, cleanupPhase, hn, hmut]
  · have h1 : mo = tr ∧ un = [] := by
      simpa [needsStash] using hn
    obtain ⟨h1a, h1b⟩ := h1
    subst h1a
    subst h1b
    simp [runGuarded, guardPhase, cleanupPhase, hn, hmut]

/-- Every launch the script makes carries a `timeout` wrapper exactly when
it is the pytest execution step (120 s), and a pytest launch can only have
happened on a zero collection exit code. -/
theorem allLaunches_spec (f : OrchFlags) (ce : Nat) (l : Launch) (hl : l ∈ allLaunches f ce) :
    l.timeoutSecs = (if l.name = "pytest" then some 120 else none) ∧
    (l.name = "pytest" → ce = 0) := by
  unfold allLaunches group1Launches group2Launches at hl
  split_ifs at hl <;>
    simp only [List.mem_append, List.mem_cons, List.not_mem_nil, or_false, false_or] at hl <;>
    (try casesm* _ ∨ _) <;>
    subst_vars <;>
    simp_all [pytestLaunch]

/-! ## Claim theorems -/

/-- C1 (counterexample): the claim — the tree is restored on *every* run
with version control, regardless of what ran — fails on the code: when
the tree is dirty and the `git stash push` command fails, the failure is
swallowed (`&& STASH_CREATED=true`), and the cleanup trap's
`git checkout . && git clean -fd` then erases the user's uncommitted
change even though no tool mutated anything. -/
theorem c1_counterexample :
    (orchestrate true
        ⟨true, false, false, false, false, true, false, false, false, false, false, false,
          none, false, false⟩
        false ⟨(0, []), (0, []), (0, []), (0, []), 0, [], 0, []⟩
        ⟨none, none, none, none, false, false⟩ (fun u => u)
        ⟨[("a", "0")], [("a", "1")], []⟩).finalTree
      ≠ ⟨[("a", "0")], [("a", "1")], []⟩ := by
  decide

/-- C1 (amended): on a project with version control, *provided the stash
command succeeds whenever the pre-run tree is dirty*, the working tree
after the run equals the tree before the run, for every Running-phase
mutation that leaves committed content alone — the cleanup step is bound
to every exit path (`mutate` ranges over arbitrary, possibly aborted,
Running phases). -/
theorem c1_tree_restored (found : Bool) (f : OrchFlags) (stashOk : Bool) (raw : ToolRaw)
    (pins : Pins) (mutate : WorkTree → WorkTree) (t : WorkTree)
    (hgit : f.hasGit = true)
    (hmut : ∀ u, (mutate u).tracked = u.tracked)
    (hstash : needsStash t = true → stashOk = true) :
    (orchestrate found f stashOk raw pins mutate t).finalTree = t := by
  unfold orchestrate
  split
  · rfl
  · split
    · rfl
    · show runGuarded f.hasGit stashOk mutate t = t
      rw [hgit]
      exact runGuarded_restores t stashOk mutate hmut hstash

/-- C1 witness: a dirty tree, a successful stash, and a tool run that both
rewrites a tracked file and creates an untracked one; the run hands back
the original dirty tree. -/
theorem c1_tree_restored_witness :
    (orchestrate true
        ⟨true, false, false, false, false, true, false, false, false, false, false, false,
          none, false, false⟩
        true ⟨(0, []), (0, []), (0, []), (0, []), 0, [], 0, []⟩
        ⟨none, none, none, none, false, false⟩
        (fun u => { u with modified := [("a", "X")], untracked := [("junk", "1")] })
        ⟨[("a", "0")], [("a", "1")], []⟩).finalTree
      = ⟨[("a", "0")], [("a", "1")], []⟩ :=
  c1_tree_restored true _ true _ _ _ _ rfl (fun _ => rfl) (fun _ => rfl)

/-- C2 (counterexample): a failing guard step does *not* propagate as a
top-level error — with a dirty tree and a failing stash command the
orchestrator still returns a normal full Verification Report. -/
theorem c2_counterexample :
    needsStash ⟨[("a", "0")], [("a", "1")], []⟩ = true ∧
    (orchestrate true
        ⟨true, false, false, false, false, true, false, false, false, false, false, false,
          none, false, false⟩
        false ⟨(0, []), (0, []), (0, []), (0, []), 0, [], 0, []⟩
        ⟨none, none, none, none, false, false⟩ (fun u => u)
        ⟨[("a", "0")], [("a", "1")], []⟩).outcome.isFull = true := by
  decide

/-- C2 (amended): guard/restore failures are silently suppressed and never
abort the run; the only input on which the orchestrator raises a hard
top-level error instead of returning a report is a missing detection-JSON
file, and whenever the detection JSON exists and a venv is present the
run returns a normal full Report, whatever the tools and the stash
command do. -/
theorem c2_error_only_missing_input (found : Bool) (f : OrchFlags) (stashOk : Bool)
    (raw : ToolRaw) (pins : Pins) (mutate : WorkTree → WorkTree) (t : WorkTree) :
    ((orchestrate found f stashOk raw pins mutate t).outcome.isError = true ↔ found = false) ∧
    ((orchestrate found f stashOk raw pins mutate t).outcome.isFull = true ↔
      (found = true ∧ f.hasVenv = true)) := by
  unfold orchestrate
  cases found <;> cases hv : f.hasVenv <;>
    simp [hv, Outcome.isError, Outcome.isFull]

/-- C2 witness: with the detection JSON missing, the run is a top-level
error. -/
theorem c2_error_only_missing_input_witness :
    (orchestrate false
        ⟨true, false, false, false, false, true, false, false, false, false, false, false,
          none, false, false⟩
        true ⟨(0, []), (0, []), (0, []), (0, []), 0, [], 0, []⟩
        ⟨none, none, none, none, false, false⟩ (fun u => u)
        ⟨[], [], []⟩).outcome.isError = true :=
  (c2_error_only_missing_input false _ true _ _ _ _).1.mpr rfl

/-- C3: when the collection step records a non-zero exit code, the
execution step is never launched (no pytest record is written, and no
launch named `pytest` occurs), and the pytest entry of the Report is
`skip` with a null exit code — never `pass` or `fail`. -/
theorem c3_collect_fail_skips_pytest (f : OrchFlags) (raw : ToolRaw) (pins : Pins)
    (ht : f.hasTests = true) (hp : f.pytestInVenv = true) (hc : ¬ raw.collectExit = 0) :
    (runTools f raw).pytest = none ∧
    (assembleReport (runTools f raw) f pins).pytest =
      { status := .skip, exit_code := none, output := [] } ∧
    ∀ l ∈ allLaunches f raw.collectExit, ¬ l.name = "pytest" := by
  have h1 : (runTools f raw).pytest = none := by
    simp [runTools, hc]
  refine ⟨h1, ?_, ?_⟩
  · simp [assembleReport, h1, tool_result]
  · intro l hl hname
    exact hc ((allLaunches_spec f raw.collectExit l hl).2 hname)

/-- C3 witness: a concrete run whose collection step exits 2. -/
theorem c3_collect_fail_skips_pytest_witness :
    (assembleReport
        (runTools
          ⟨true, false, false, false, true, true, false, true, false, false, false, false,
            none, false, false⟩
          ⟨(0, []), (0, []), (0, []), (0, []), 2, ["collect error"], 0, []⟩)
        ⟨true, false, false, false, true, true, false, true, false, false, false, false,
          none, false, false⟩
        ⟨none, none, none, none, false, false⟩).pytest =
      { status := .skip, exit_code := none, output := [] } :=
  (c3_collect_fail_skips_pytest _ _ _ rfl rfl (by decide)).2.1

/-- C4 (counterexample): not every tool invocation enforces an individual
timeout — the ruff lint check is launched with no `timeout` wrapper at
all (and so are the format check, type check and hook-runner). -/
theorem c4_counterexample :
    (⟨"ruff_check", ".venv/bin/ruff check .", none⟩ : Launch) ∈
      allLaunches
        ⟨true, true, true, true, true, true, true, true, true, true, false, false,
          none, false, false⟩ 0 ∧
    (⟨"ruff_check", ".venv/bin/ruff check .", none⟩ : Launch).timeoutSecs = none := by
  decide

/-- C4 (amended): only the pytest execution step runs under a deadline
(120 s); for it, exceeding the deadline records the distinct sentinel
exit code 124, which `tool_result` maps to `timeout`, never to `fail`
(and `timeout` arises from no other exit code). -/
theorem c4_only_pytest_deadline (f : OrchFlags) (ce ec : Nat) (out : List String) :
    (∀ l ∈ allLaunches f ce,
      l.timeoutSecs = (if l.name = "pytest" then some 120 else none)) ∧
    (tool_result (some (124, out))).status = .timeout ∧
    ((tool_result (some (ec, out))).status = .timeout ↔ ec = 124) ∧
    Status.timeout ≠ Status.fail := by
  refine ⟨fun l hl => (allLaunches_spec f ce l hl).1, by simp [tool_result], ?_, by decide⟩
  unfold tool_result
  by_cases h0 : ec = 0
  · simp [h0]
  · by_cases h124 : ec = 124 <;> simp [h0, h124]

/-- C4 witness: the concrete configuration of the counterexample, with a
pytest process killed by its deadline (exit 124). -/
theorem c4_only_pytest_deadline_witness :
    (tool_result (some (124, ["timed out"]))).status = .timeout :=
  (c4_only_pytest_deadline
    ⟨true, true, true, true, true, true, true, true, true, true, false, false,
      none, false, false⟩ 0 124 ["timed out"]).2.1

/-- C5 (counterexample): the truncation bound does not hold for the
collection step — its output is captured with no truncation at all
(verify.sh lines 120-121 bypass `run_tool`), so a 40-line collection
output appears in the Report as all 40 lines, exceeding the 30-line
budget plus one marker line. -/
theorem c5_counterexample :
    30 < (List.replicate (40 : Nat) "E").length ∧
    ((assembleReport
        (runTools
          ⟨true, false, false, false, true, true, false, true, false, false, false, false,
            none, false, false⟩
          ⟨(0, []), (0, []), (0, []), (0, []), 1, List.replicate 40 "E", 0, []⟩)
        ⟨true, false, false, false, true, true, false, true, false, false, false, false,
          none, false, false⟩
        ⟨none, none, none, none, false, false⟩).test_collect.output).length = 40 := by
  decide

/-- C5 (amended): tools captured through `run_tool` (lint, format, type
check, hook runner) keep the head — at most 30 lines plus the single
fixed marker line, so at most 31 lines; the pytest execution step keeps
the tail — at most 30 lines, no marker; the collection step alone is
captured in full, with no bound. -/
theorem c5_truncation_bounds (xs : List String) (f : OrchFlags) (raw : ToolRaw)
    (hr : f.hasRuff = true) (hrv : f.ruffInVenv = true)
    (ht : f.hasTests = true) (hp : f.pytestInVenv = true) :
    (truncHead xs).length ≤ 31 ∧
    (30 < xs.length → truncHead xs = xs.take 30 ++ ["... (truncated)"]) ∧
    (truncTail xs).length ≤ 30 ∧
    (30 < xs.length → truncTail xs = xs.drop (xs.length - 30)) ∧
    (runTools f raw).ruffCheck = some (raw.ruffCheck.1, truncHead raw.ruffCheck.2) ∧
    (raw.collectExit = 0 →
      (runTools f raw).pytest = some (raw.pytestExit, truncTail raw.pytestOut)) ∧
    (runTools f raw).testCollect = some (raw.collectExit, raw.collectOut) := by
  refine ⟨?_, ?_, ?_, ?_, ?_, ?_, ?_⟩
  · unfold truncHead
    split
    · simp
    · omega
  · intro h
    simp [truncHead, h]
  · unfold truncTail
    split
    · simp
      omega
    · omega
  · intro h
    simp [truncTail, h]
  · simp [runTools, hr, hrv]
  · intro h
    simp [runTools, ht, hp, h]
  · simp [runTools, ht, hp]

/-- C5 witness: concrete 40-line output through both truncation shapes. -/
theorem c5_truncation_bounds_witness :
    (truncHead (List.replicate (40 : Nat) "E")).length ≤ 31 :=
  (c5_truncation_bounds (List.replicate 40 "E")
    ⟨true, true, false, false, true, true, true, true, false, false, false, false,
      none, false, false⟩
    ⟨(0, []), (0, []), (0, []), (0, []), 0, [], 0, []⟩ rfl rfl rfl rfl).1

/-- C6: with local ruff 1.2.0, hook-pinned ruff 1.3.0 and no CI pin, the
mismatch list is exactly one `venv_vs_precommit` entry and no `venv_vs_ci`
entry (whatever the local python version, absent a CI python pin); and in
general each ruff comparison kind emits an entry if and only if both the
local and the corresponding pinned version are present and unequal. -/
theorem c6_drift_symmetry (lp : Option String) :
    version_mismatches (some "1.2.0") (some "1.3.0") none lp none =
      [{ tool := "ruff", kind := "venv_vs_precommit", localVer := "1.2.0", pinned := "1.3.0" }] ∧
    (∀ a b : Option String,
      ruffPrecommitMismatch a b ≠ [] ↔ ∃ lv pv, a = some lv ∧ b = some pv ∧ lv ≠ pv) ∧
    (∀ a c : Option String,
      ruffCiMismatch a c ≠ [] ↔ ∃ lv pv, a = some lv ∧ c = some pv ∧ lv ≠ pv) := by
  refine ⟨?_, ?_, ?_⟩
  · rcases lp with _ | v <;>
      simp [version_mismatches, ruffPrecommitMismatch, ruffCiMismatch, pythonCiMismatch]
  · intro a b
    rcases a with _ | lv
    · simp [ruffPrecommitMismatch]
    · rcases b with _ | pv
      · simp [ruffPrecommitMismatch]
      · by_cases h : lv = pv
        · subst h
          simp [ruffPrecommitMismatch]
        · simp [ruffPrecommitMismatch, h]
  · intro a c
    rcases a with _ | lv
    · simp [ruffCiMismatch]
    · rcases c with _ | pv
      · simp [ruffCiMismatch]
      · by_cases h : lv = pv
        · subst h
          simp [ruffCiMismatch]
        · simp [ruffCiMismatch, h]

/-- C6 witness: the scenario itself, with no local python version. -/
theorem c6_drift_symmetry_witness :
    version_mismatches (some "1.2.0") (some "1.3.0") none none none =
      [{ tool := "ruff", kind := "venv_vs_precommit", localVer := "1.2.0", pinned := "1.3.0" }] :=
  (c6_drift_symmetry none).1

/-- C7: the python local-vs-CI comparison uses only major.minor precision
— given a CI pin already of major.minor shape (as the extraction regex
guarantees), no entry is emitted exactly when the local version's
major.minor prefix equals it, an entry is emitted exactly when the
prefixes differ, and a missing side emits nothing. -/
theorem c7_python_major_minor (lp cv : String) (hcv : majorMinor cv = cv) :
    (pythonCiMismatch (some lp) (some cv) = [] ↔ majorMinor lp = majorMinor cv) ∧
    (pythonCiMismatch (some lp) (some cv) ≠ [] ↔ ¬ majorMinor lp = majorMinor cv) ∧
    (∀ a : Option String, pythonCiMismatch a none = []) ∧
    (∀ b : Option String, pythonCiMismatch none b = []) := by
  rw [hcv]
  refine ⟨?_, ?_, ?_, ?_⟩
  · by_cases h : majorMinor lp = cv <;> simp [pythonCiMismatch, h]
  · by_cases h : majorMinor lp = cv <;> simp [pythonCiMismatch, h]
  · intro a
    rcases a with _ | v <;> rfl
  · intro b
    rcases b with _ | v <;> rfl

/-- C7 witness: local python 3.11.4 against CI pin 3.11 emits no
mismatch. -/
theorem c7_python_major_minor_witness :
    pythonCiMismatch (some "3.11.4") (some "3.11") = [] :=
  (c7_python_major_minor "3.11.4" "3.11" (by decide)).1.mpr (by decide)

/-- C8: with no venv in the Fact Sheet, the run returns the skipped
report, launches no subprocess, attempts no stash, checks no drift and
leaves the tree untouched. -/
theorem c8_no_venv_skip (f : OrchFlags) (stashOk : Bool) (raw : ToolRaw) (pins : Pins)
    (mutate : WorkTree → WorkTree) (t : WorkTree) (hv : f.hasVenv = false) :
    orchestrate true f stashOk raw pins mutate t =
      { outcome := .skippedReport "no venv detected"
        launches := []
        stashAttempted := false
        driftChecked := false
        finalTree := t } := by
  simp [orchestrate, hv]

/-- C8 witness: a concrete Fact Sheet with every area but the venv
present. -/
theorem c8_no_venv_skip_witness :
    orchestrate true
        ⟨false, true, true, true, true, true, true, true, true, true, false, false,
          some "1.2.0", false, false⟩
        true ⟨(0, []), (0, []), (0, []), (0, []), 0, [], 0, []⟩
        ⟨none, none, none, none, false, false⟩ (fun u => u)
        ⟨[("a", "0")], [("a", "1")], []⟩ =
      { outcome := .skippedReport "no venv detected"
        launches := []
        stashAttempted := false
        driftChecked := false
        finalTree := ⟨[("a", "0")], [("a", "1")], []⟩ } :=
  c8_no_venv_skip _ true _ _ _ _ rfl

/-- C9: detection is total (modelled as a total function) and degrades
gracefully — when `pyproject.toml` fails to parse, every metadata-derived
fact takes its absent value (no declared name, null minimum language
version, no dependency-derived flags) and the project name falls back to
the last path segment of the project root; the same fallback applies
whenever a parse succeeds but declares no name. -/
theorem c9_detector_degrades (i : DetectInput) :
    (i.parsed = none →
      detectFacts i =
        { project_name := i.cwdBasename
          requires_python := none
          ruffArea := i.hasRuffToml
          has_coverage_config := i.hasCoveragerc
          cov_in_addopts := false
          has_inline_snapshot := false
          has_dirty_equals := false
          has_pydantic := false
          has_pytest_cov := false }) ∧
    (∀ p, i.parsed = some p → p.name = none →
      (detectFacts i).project_name = i.cwdBasename) := by
  constructor
  · intro h
    unfold detectFacts
    cases hq : i.hasPyproject <;> simp [h]
  · intro p hp hn
    unfold detectFacts
    cases hq : i.hasPyproject <;> simp [hp, hn]

/-- C9 witness: a present but unparsable pyproject.toml. -/
theorem c9_detector_degrades_witness :
    detectFacts { hasPyproject := true, parsed := none, cwdBasename := "myproj",
                  hasRuffToml := false, hasCoveragerc := false } =
      { project_name := "myproj"
        requires_python := none
        ruffArea := false
        has_coverage_config := false
        cov_in_addopts := false
        has_inline_snapshot := false
        has_dirty_equals := false
        has_pydantic := false
        has_pytest_cov := false } :=
  (c9_detector_degrades _).1 rfl

/-- C10 (implicit): a Tool Result's status is a function of the recorded
exit code alone — 0 ↦ pass, 124 ↦ timeout, anything else ↦ fail, missing
record ↦ skip with null exit code — so a tool that is launched with no
deadline at all (here the ruff lint check) is still reported as `timeout`
when its process exits 124. -/
theorem c10_status_from_exit (ec : Nat) (out : List String) (f : OrchFlags) (raw : ToolRaw)
    (pins : Pins) (ce : Nat)
    (hr : f.hasRuff = true) (hrv : f.ruffInVenv = true) (h124 : raw.ruffCheck.1 = 124) :
    (tool_result (some (ec, out))).status =
      (if ec = 0 then .pass else if ec = 124 then .timeout else .fail) ∧
    (tool_result (some (ec, out))).exit_code = some ec ∧
    tool_result none = { status := .skip, exit_code := none, output := [] } ∧
    (assembleReport (runTools f raw) f pins).ruff_check.status = .timeout ∧
    (∀ l ∈ allLaunches f ce, l.name = "ruff_check" → l.timeoutSecs = none) := by
  refine ⟨rfl, rfl, rfl, ?_, ?_⟩
  · simp [assembleReport, runTools, hr, hrv, tool_result, h124]
  · intro l hl hn
    have hts := (allLaunches_spec f ce l hl).1
    rw [hn, if_neg (by decide)] at hts
    exact hts

/-- C10 witness: ruff check (no deadline) exiting 124 is reported as
timeout. -/
theorem c10_status_from_exit_witness :
    (assembleReport
        (runTools
          ⟨true, true, false, false, false, true, true, false, false, false, false, false,
            none, false, false⟩
          ⟨(124, ["hung"]), (0, []), (0, []), (0, []), 0, [], 0, []⟩)
        ⟨true, true, false, false, false, true, true, false, false, false, false, false,
          none, false, false⟩
        ⟨none, none, none, none, false, false⟩).ruff_check.status = .timeout :=
  (c10_status_from_exit 5 [] _ _ _ 0 rfl rfl rfl).2.2.2.1
